import Mathlib

/-!
Verification of the document-vault front end ("DigiLocker").

The development shallowly embeds the client-side document store found in
`src/src/context/DocumentContext.tsx` (the Supabase variant, the primary
implementation), the upload validation in
`src/src/components/DocumentUploader.tsx` (`processFile`), and the two
alternative backend variants found in `src/unnamed/part_003`: the
localStorage mock (namespace `Mock`) and the Firebase variant (namespace
`Firebase`).

Modelling conventions:
- ISO-8601 timestamp strings are represented as natural numbers; ISO strings
  compare lexicographically exactly as their chronological order, so the
  ordering claims are preserved by this encoding.
- Each remote boundary call that can reject for external reasons takes an
  `Option String` fault parameter: `none` means the call succeeds, `some e`
  means the backend rejected with message `e`.  This mirrors the
  `if (error) throw error` pattern at every call site.
- Every operation returns the new local mirror, the new remote state, the
  toast notifications it emitted (in order), the list of remote boundary
  calls it issued (in order), and the error it re-threw to the caller, if
  any.  React `setDocuments(prev => ...)` updates are applied to the
  mirror passed in.
- The Supabase storage `remove` reports success even when the object at the
  given path no longer exists (vendor semantics: missing keys are silently
  ignored); the Firebase `deleteObject` rejects with
  `storage/object-not-found` when the object is absent (vendor semantics).
-/

namespace Vault

/-- A toast notification as emitted through `sonner`. -/
inductive Toast where
  | success (msg : String)
  | error (msg : String)
  | info (msg : String)
deriving DecidableEq, Repr

/-- A remote boundary invocation (object storage or metadata store). -/
inductive Call where
  | storageUpload (path : String)
  | storageCreateSignedUrl (path : String)
  | storageRemove (path : String)
  | dbSelect
  | dbInsert
  | dbUpdate
  | dbDelete
deriving DecidableEq, Repr

/-- The authenticated identity (`user` from the auth context). -/
structure User where
  id : String
deriving DecidableEq, Repr

/-- A browser `File` as far as the store consults it. -/
structure File where
  name : String
  type : String
  size : Nat
deriving DecidableEq, Repr

/-- The `Document` interface of `DocumentContext.tsx`. -/
structure Document where
  id : String
  name : String
  type : String
  size : Nat
  createdAt : Nat
  updatedAt : Nat
  url : String
  shared : Bool
  verified : Bool
  preview : Option String
deriving DecidableEq, Repr

/-- A row of the remote `documents` table. -/
structure DbRecord where
  id : String
  user_id : String
  name : String
  type : String
  size : Nat
  storage_path : String
  shared : Bool
  verified : Bool
  created_at : Nat
  updated_at : Nat
deriving DecidableEq, Repr

/-- Remote backend state: the metadata table, the set of stored object
paths, and the server clock used for the `created_at` default. -/
structure Remote where
  table : List DbRecord
  objects : List String
  clock : Nat
deriving DecidableEq, Repr

/-- Observable outcome of one store operation. -/
structure OpResult where
  documents : List Document
  remote : Remote
  toasts : List Toast
  calls : List Call
  thrown : Option String
deriving DecidableEq, Repr

/-- `true` iff the toast list contains an error toast. -/
def hasErrorToast (ts : List Toast) : Bool :=
  ts.any fun t => match t with
    | Toast.error _ => true
    | _ => false

/-! ### Percent-encoding (JavaScript `encodeURIComponent` / percent-decoding) -/

/-- Characters `encodeURIComponent` leaves unescaped:
alphanumerics and `- _ . ! ~ * ( )` and the apostrophe (code 39). -/
def isUnreserved (c : Char) : Bool :=
  c.isAlpha || c.isDigit || c = '-' || c = '_' || c = '.' || c = '!' ||
  c = '~' || c = '*' || c = Char.ofNat 39 || c = '(' || c = ')'

/-- Uppercase hexadecimal digit for `n < 16`. -/
def hexDigit (n : Nat) : Char :=
  if n < 10 then Char.ofNat (48 + n) else Char.ofNat (55 + n)

/-- Value of a hexadecimal digit character. -/
def hexVal (c : Char) : Option Nat :=
  if 48 ≤ c.toNat ∧ c.toNat ≤ 57 then some (c.toNat - 48)
  else if 65 ≤ c.toNat ∧ c.toNat ≤ 70 then some (c.toNat - 55)
  else if 97 ≤ c.toNat ∧ c.toNat ≤ 102 then some (c.toNat - 87)
  else none

/-- One character of `encodeURIComponent` output (single-byte range). -/
def encodeChar (c : Char) : List Char :=
  if isUnreserved c then [c]
  else ['%', hexDigit (c.toNat / 16), hexDigit (c.toNat % 16)]

/-- JavaScript `encodeURIComponent` on the single-byte character range. -/
def encodeURIComponent (s : List Char) : List Char :=
  s.flatMap encodeChar

/-- Percent-decoding: each `%XY` with hexadecimal `X`, `Y` becomes the
character with code `16*X + Y`; everything else is copied through. -/
def percentDecode : List Char → List Char
  | [] => []
  | '%' :: h1 :: h2 :: rest2 =>
    match hexVal h1, hexVal h2 with
    | some a, some b => Char.ofNat (16 * a + b) :: percentDecode rest2
    | _, _ => '%' :: percentDecode (h1 :: h2 :: rest2)
  | c :: rest => c :: percentDecode rest

/-- `inner` occurs contiguously inside `outer`. -/
def occursIn (inner outer : List Char) : Prop :=
  ∃ s t, outer = s ++ inner ++ t

/-! ### Shared helpers -/

/-- Model of `supabase.storage.from('documents').createSignedUrl(path, 3600)`:
the boundary returns a signed URL determined by the path. -/
def createSignedUrl (path : String) : String :=
  "https://signed.example/documents/" ++ path

/-- The `Document` built from a fetched row, as in the `fetchDocuments`
mapping of `DocumentContext.tsx` (signed URL per document, image preview for
image types, `/placeholder.svg` otherwise). -/
def docOfRecord (r : DbRecord) : Document :=
  { id := r.id
    name := r.name
    type := r.type
    size := r.size
    createdAt := r.created_at
    updatedAt := r.updated_at
    url := createSignedUrl r.storage_path
    shared := r.shared
    verified := r.verified
    preview := if r.type.startsWith "image/" then some (createSignedUrl r.storage_path)
               else some "/placeholder.svg" }

/-- Newest-first ordering on mirror documents. -/
def newestFirst (a b : Document) : Prop :=
  b.createdAt ≤ a.createdAt

instance : DecidableRel newestFirst := fun a b => Nat.decLe _ _

instance : IsTotal Document newestFirst :=
  ⟨fun a b => Nat.le_total b.createdAt a.createdAt⟩

instance : IsTrans Document newestFirst :=
  ⟨fun _ _ _ hab hbc => Nat.le_trans hbc hab⟩

/-- Newest-first ordering on table rows (`order('created_at', desc)`). -/
def rowNewestFirst (a b : DbRecord) : Prop :=
  b.created_at ≤ a.created_at

instance : DecidableRel rowNewestFirst := fun a b => Nat.decLe _ _

instance : IsTotal DbRecord rowNewestFirst :=
  ⟨fun a b => Nat.le_total b.created_at a.created_at⟩

instance : IsTrans DbRecord rowNewestFirst :=
  ⟨fun _ _ _ hab hbc => Nat.le_trans hbc hab⟩

/-! ### The Supabase document store (`src/src/context/DocumentContext.tsx`) -/

/-- `fetchDocuments` (the effect run on identity change): anonymous callers
get the empty mirror; otherwise the table is queried filtered to the caller
(row-level security) ordered by `created_at` descending, and each row is
resolved to a `Document` with a fresh signed URL.  On a remote failure the
previous mirror is left untouched and an error toast is emitted. -/
def fetchDocuments (user : Option User) (docs : List Document) (remote : Remote)
    (fetchError : Option String) : OpResult :=
  match user with
  | none =>
    { documents := [], remote := remote, toasts := [], calls := [], thrown := none }
  | some u =>
    match fetchError with
    | some _ =>
      { documents := docs, remote := remote
        toasts := [Toast.error "Failed to fetch documents"]
        calls := [Call.dbSelect], thrown := none }
    | none =>
      let rows := List.insertionSort rowNewestFirst
        (remote.table.filter fun r => r.user_id == u.id)
      { documents := rows.map docOfRecord, remote := remote
        toasts := []
        calls := Call.dbSelect :: rows.map (fun r => Call.storageCreateSignedUrl r.storage_path)
        thrown := none }

/-- Fault injection points of `uploadDocument`: the storage upload, the
metadata insert, and the post-insert select. -/
structure UploadFaults where
  uploadError : Option String
  dbError : Option String
  selectError : Option String
deriving DecidableEq, Repr

/-- All remote calls succeed. -/
def cleanUpload : UploadFaults := ⟨none, none, none⟩

/-- The storage path built for an upload:
`user.id / uuid . (last dot-component of the file name)`. -/
def uploadPath (u : User) (uuid : String) (file : File) : String :=
  u.id ++ "/" ++ uuid ++ "." ++ (file.name.splitOn ".").getLastD ""

/-- The row the metadata insert creates (`created_at` / `updated_at` are the
server defaults, the id is server-assigned). -/
def insertedRecord (u : User) (remote : Remote) (uuid : String) (file : File) : DbRecord :=
  { id := "doc-" ++ toString remote.clock
    user_id := u.id
    name := file.name
    type := file.type
    size := file.size
    storage_path := uploadPath u uuid file
    shared := false
    verified := false
    created_at := remote.clock
    updated_at := remote.clock }

/-- The `Document` appended to the mirror by a fully successful upload. -/
def uploadedDoc (u : User) (remote : Remote) (uuid : String) (file : File) : Document :=
  { id := (insertedRecord u remote uuid file).id
    name := file.name
    type := file.type
    size := file.size
    createdAt := remote.clock
    updatedAt := remote.clock
    url := createSignedUrl (uploadPath u uuid file)
    shared := false
    verified := false
    preview := if file.type.startsWith "image/"
               then some (createSignedUrl (uploadPath u uuid file))
               else some "/placeholder.svg" }

/-- `uploadDocument` of the Supabase variant: the only mutator that checks
authentication.  On success the new document is prepended to the mirror;
every thrown remote error is caught and turned into an error toast. -/
def uploadDocument (user : Option User) (docs : List Document) (remote : Remote)
    (f : UploadFaults) (uuid : String) (file : File) : OpResult :=
  match user with
  | none =>
    { documents := docs, remote := remote
      toasts := [Toast.error "Please login to upload documents"]
      calls := [], thrown := none }
  | some u =>
    let path := uploadPath u uuid file
    match f.uploadError with
    | some e =>
      { documents := docs, remote := remote
        toasts := [Toast.error e]
        calls := [Call.storageUpload path], thrown := none }
    | none =>
      let remote1 := { remote with objects := path :: remote.objects }
      match f.dbError with
      | some e =>
        { documents := docs, remote := remote1
          toasts := [Toast.error e]
          calls := [Call.storageUpload path, Call.dbInsert], thrown := none }
      | none =>
        let newRec := insertedRecord u remote1 uuid file
        let remote2 := { remote1 with table := newRec :: remote1.table,
                                      clock := remote1.clock + 1 }
        match f.selectError with
        | some e =>
          { documents := docs, remote := remote2
            toasts := [Toast.success (file.name ++ " uploaded successfully"), Toast.error e]
            calls := [Call.storageUpload path, Call.dbInsert, Call.dbSelect]
            thrown := none }
        | none =>
          { documents := uploadedDoc u remote1 uuid file :: docs
            remote := remote2
            toasts := [Toast.success (file.name ++ " uploaded successfully")]
            calls := [Call.storageUpload path, Call.dbInsert, Call.dbSelect,
                      Call.storageCreateSignedUrl path]
            thrown := none }

/-- Fault injection points of `deleteDocument`: the storage-path fetch, the
storage remove, and the metadata delete.  The storage remove rejects only on
an injected fault — Supabase `remove` reports success when the path no
longer exists (missing keys are silently ignored by the vendor). -/
structure DeleteFaults where
  fetchError : Option String
  storageError : Option String
  dbError : Option String
deriving DecidableEq, Repr

/-- All remote calls succeed. -/
def cleanDelete : DeleteFaults := ⟨none, none, none⟩

/-- `deleteDocument` of the Supabase variant.  Note: the source performs no
authentication check here; it issues the metadata select unconditionally.
`single()` rejects when no row matches the id. -/
def deleteDocument (_user : Option User) (docs : List Document) (remote : Remote)
    (f : DeleteFaults) (id : String) : OpResult :=
  match f.fetchError with
  | some e =>
    { documents := docs, remote := remote
      toasts := [Toast.error e], calls := [Call.dbSelect], thrown := none }
  | none =>
    match remote.table.find? (fun r => r.id == id) with
    | none =>
      { documents := docs, remote := remote
        toasts := [Toast.error "JSON object requested, multiple (or no) rows returned"]
        calls := [Call.dbSelect], thrown := none }
    | some r =>
      match f.storageError with
      | some e =>
        { documents := docs, remote := remote
          toasts := [Toast.error e]
          calls := [Call.dbSelect, Call.storageRemove r.storage_path], thrown := none }
      | none =>
        let remote1 := { remote with objects := remote.objects.filter (· != r.storage_path) }
        match f.dbError with
        | some e =>
          { documents := docs, remote := remote1
            toasts := [Toast.error e]
            calls := [Call.dbSelect, Call.storageRemove r.storage_path, Call.dbDelete]
            thrown := none }
        | none =>
          { documents := docs.filter (fun d => d.id != id)
            remote := { remote1 with table := remote1.table.filter (fun x => x.id != id) }
            toasts := [Toast.success "Document deleted successfully"]
            calls := [Call.dbSelect, Call.storageRemove r.storage_path, Call.dbDelete]
            thrown := none }

/-- The sharing descriptor `shareDocument` returns. -/
structure ShareLink where
  url : List Char
  qrCode : List Char
deriving DecidableEq, Repr

/-- Outcome of `shareDocument`: an `OpResult` plus the returned descriptor. -/
structure ShareOutcome where
  documents : List Document
  remote : Remote
  toasts : List Toast
  calls : List Call
  thrown : Option String
  result : Option ShareLink
deriving DecidableEq, Repr

/-- The fixed part of the QR-code URL. -/
def qrBase : List Char :=
  ("https://api.qrserver.com/v1/create-qr-code/?size=150x150&data=").data

/-- The deep link: `origin ++ "/shared/" ++ id`. -/
def sharingUrl (origin : List Char) (id : String) : List Char :=
  origin ++ ("/shared/").data ++ id.data

/-- The descriptor computed by `shareDocument` from the origin and the id. -/
def shareLinkFor (origin : List Char) (id : String) : ShareLink :=
  { url := sharingUrl origin id
    qrCode := qrBase ++ encodeURIComponent (sharingUrl origin id) }

/-- `shareDocument` of the Supabase variant.  No authentication check in the
source.  On a remote failure the error is toasted and then re-thrown; on
success the `shared` flag is set remotely and in the mirror and the freshly
computed descriptor is returned (it is not stored anywhere). -/
def shareDocument (_user : Option User) (docs : List Document) (remote : Remote)
    (origin : List Char) (updateError : Option String) (id : String) : ShareOutcome :=
  match updateError with
  | some e =>
    { documents := docs, remote := remote
      toasts := [Toast.error e], calls := [Call.dbUpdate]
      thrown := some e, result := none }
  | none =>
    { documents := docs.map (fun d => if d.id == id then { d with shared := true } else d)
      remote := { remote with
        table := remote.table.map (fun r => if r.id == id then { r with shared := true } else r) }
      toasts := [], calls := [Call.dbUpdate]
      thrown := none, result := some (shareLinkFor origin id) }

/-- Fault injection points of `toggleVerifyDocument`. -/
structure ToggleFaults where
  fetchError : Option String
  updateError : Option String
deriving DecidableEq, Repr

/-- All remote calls succeed. -/
def cleanToggle : ToggleFaults := ⟨none, none⟩

/-- `toggleVerifyDocument` of the Supabase variant.  No authentication check
in the source.  Reads the current `verified` flag from the table, flips it
remotely and in the mirror, and toasts success when the new status is
verified, info when it is un-verified. -/
def toggleVerifyDocument (_user : Option User) (docs : List Document) (remote : Remote)
    (f : ToggleFaults) (id : String) : OpResult :=
  match f.fetchError with
  | some e =>
    { documents := docs, remote := remote
      toasts := [Toast.error e], calls := [Call.dbSelect], thrown := none }
  | none =>
    match remote.table.find? (fun r => r.id == id) with
    | none =>
      { documents := docs, remote := remote
        toasts := [Toast.error "JSON object requested, multiple (or no) rows returned"]
        calls := [Call.dbSelect], thrown := none }
    | some r =>
      let newStatus := !r.verified
      match f.updateError with
      | some e =>
        { documents := docs, remote := remote
          toasts := [Toast.error e]
          calls := [Call.dbSelect, Call.dbUpdate], thrown := none }
      | none =>
        { documents := docs.map (fun d => if d.id == id then { d with verified := newStatus } else d)
          remote := { remote with
            table := remote.table.map (fun x => if x.id == id then { x with verified := newStatus } else x) }
          toasts := [if newStatus then Toast.success "Document verified successfully"
                     else Toast.info "Document verification removed"]
          calls := [Call.dbSelect, Call.dbUpdate], thrown := none }

/-! ### Upload validation (`src/src/components/DocumentUploader.tsx`) -/

/-- The media types `processFile` accepts. -/
def allowedTypes : List String :=
  ["application/pdf", "image/jpeg", "image/jpg", "image/png",
   "application/msword",
   "application/vnd.openxmlformats-officedocument.wordprocessingml.document"]

/-- `processFile`: requires a signed-in user, rejects files over
`10 * 1024 * 1024` bytes, rejects unsupported media types — each rejection is
a toast and an early return before any boundary call — and otherwise runs
`uploadDocument` followed by the component's own success toast. -/
def processFile (user : Option User) (docs : List Document) (remote : Remote)
    (f : UploadFaults) (uuid : String) (file : File) : OpResult :=
  if user.isNone then
    { documents := docs, remote := remote
      toasts := [Toast.error "You must be logged in to upload documents"]
      calls := [], thrown := none }
  else if file.size > 10 * 1024 * 1024 then
    { documents := docs, remote := remote
      toasts := [Toast.error "File size exceeds the 10MB limit"]
      calls := [], thrown := none }
  else if !(allowedTypes.contains file.type) then
    { documents := docs, remote := remote
      toasts := [Toast.error "File type not supported. Please upload PDF, JPG, PNG, or DOC files"]
      calls := [], thrown := none }
  else
    let r := uploadDocument user docs remote f uuid file
    { r with toasts := r.toasts ++ [Toast.success (file.name ++ " uploaded successfully")] }

/-! ### The localStorage mock variant (`src/unnamed/part_003`, first file) -/

namespace Mock

/-- `s.includes(pattern)` for a non-empty pattern. -/
def strIncludes (s pattern : String) : Bool :=
  (s.splitOn pattern).length != 1

/-- The demo documents seeded on first load, in source order.
Timestamps: `2023-01-15T12:00:00Z`, `2023-02-20T10:30:00Z`,
`2023-03-05T15:45:00Z`, encoded as `yyyymmddhhmmss`. -/
def demoDocuments : List Document :=
  [ { id := "1", name := "Passport.pdf", type := "application/pdf", size := 2500000
      createdAt := 20230115120000, updatedAt := 20230115120000, url := "#"
      shared := false, verified := true, preview := some "/placeholder.svg" },
    { id := "2", name := "Driver_License.jpg", type := "image/jpeg", size := 1200000
      createdAt := 20230220103000, updatedAt := 20230220103000, url := "#"
      shared := true, verified := true, preview := some "/placeholder.svg" },
    { id := "3", name := "Vaccination_Certificate.pdf", type := "application/pdf", size := 890000
      createdAt := 20230305154500, updatedAt := 20230305154500, url := "#"
      shared := false, verified := false, preview := some "/placeholder.svg" } ]

/-- The load effect: anonymous → empty mirror; otherwise the stored list if
present, else the demo documents. -/
def loadDocuments (user : Option User) (stored : Option (List Document)) : List Document :=
  match user with
  | none => []
  | some _ =>
    match stored with
    | some ds => ds
    | none => demoDocuments

/-- Mock `uploadDocument`: builds the new document (id and timestamps from
the current time `now`, object URL from `URL.createObjectURL`) and appends it
at the END of the mirror (`[...documents, newDoc]`). -/
def uploadDocument (docs : List Document) (now : Nat) (objectUrl : String)
    (file : File) : List Document × List Toast :=
  let newDoc : Document :=
    { id := toString now, name := file.name, type := file.type, size := file.size
      createdAt := now, updatedAt := now, url := objectUrl
      shared := false, verified := false
      preview := if strIncludes file.type "image" then some objectUrl
                 else some "/placeholder.svg" }
  (docs ++ [newDoc], [Toast.success (file.name ++ " uploaded successfully")])

/-- Mock `deleteDocument`: filters the id out of the mirror. -/
def deleteDocument (docs : List Document) (id : String) : List Document × List Toast :=
  (docs.filter (fun d => d.id != id), [Toast.success "Document deleted successfully"])

/-- Mock `shareDocument`: sets the `shared` flag in the mirror and returns a
descriptor; the QR URL embeds the deep link without percent-encoding. -/
def shareDocument (docs : List Document) (id : String) : List Document × ShareLink :=
  (docs.map (fun d => if d.id == id then { d with shared := true } else d),
   { url := ("https://digilocker.example/share/" ++ id).data
     qrCode := ("https://api.qrserver.com/v1/create-qr-code/?size=150x150&data=https://digilocker.example/share/" ++ id).data })

/-- Mock `toggleVerifyDocument`: flips the flag in the mirror; the toast
direction is read from the pre-update mirror (`documents.find`), success when
the document was unverified (or not found), info when it was verified. -/
def toggleVerifyDocument (docs : List Document) (id : String) : List Document × List Toast :=
  let updated := docs.map (fun d => if d.id == id then { d with verified := !d.verified } else d)
  let toasts :=
    match docs.find? (fun d => d.id == id) with
    | some d =>
      if d.verified then [Toast.info "Document verification removed"]
      else [Toast.success "Document verified successfully"]
    | none => [Toast.success "Document verified successfully"]
  (updated, toasts)

end Mock

/-! ### The Firebase variant (`src/unnamed/part_003`, second file) -/

namespace Firebase

/-- Firebase `deleteDocument`: fetches the record by id (no toast and no
further action when the snapshot is empty), then calls `deleteObject` on the
storage path.  `deleteObject` rejects with `storage/object-not-found` when
the object is absent; the surrounding catch turns that into an error toast
and the Firestore record and the mirror entry are NOT removed. -/
def deleteDocument (docs : List Document) (remote : Remote) (id : String) : OpResult :=
  match remote.table.find? (fun r => r.id == id) with
  | none =>
    { documents := docs, remote := remote
      toasts := [], calls := [Call.dbSelect], thrown := none }
  | some r =>
    if remote.objects.contains r.storage_path then
      { documents := docs.filter (fun d => d.id != id)
        remote := { remote with
          objects := remote.objects.filter (· != r.storage_path)
          table := remote.table.filter (fun x => x.id != id) }
        toasts := [Toast.success "Document deleted successfully"]
        calls := [Call.dbSelect, Call.storageRemove r.storage_path, Call.dbDelete]
        thrown := none }
    else
      { documents := docs, remote := remote
        toasts := [Toast.error "storage/object-not-found"]
        calls := [Call.dbSelect, Call.storageRemove r.storage_path]
        thrown := none }

end Firebase


/-! ### Concrete fixtures used by witnesses and counterexamples -/

/-- A sample authenticated identity. -/
def sampleUser : User := ⟨"user-1"⟩

/-- A small valid PDF file. -/
def sampleFile : File := { name := "a.pdf", type := "application/pdf", size := 5 }

/-- A sample unverified mirror document with id `1`. -/
def sampleDoc : Document :=
  { id := "1", name := "a.pdf", type := "application/pdf", size := 5
    createdAt := 100, updatedAt := 100, url := "#"
    shared := false, verified := false, preview := some "/placeholder.svg" }

/-- The table row matching `sampleDoc`. -/
def sampleRec : DbRecord :=
  { id := "1", user_id := "user-1", name := "a.pdf", type := "application/pdf", size := 5
    storage_path := "user-1/t.pdf", shared := false, verified := false
    created_at := 100, updated_at := 100 }

/-- A remote state holding exactly `sampleRec` and its stored object. -/
def sampleRemote : Remote :=
  { table := [sampleRec], objects := ["user-1/t.pdf"], clock := 200 }

/-- `sampleDoc` with the verification badge set. -/
def verifiedDoc : Document := { sampleDoc with verified := true }

/-- `sampleRec` with the verification badge set. -/
def verifiedRec : DbRecord := { sampleRec with verified := true }

/-- A remote state holding exactly `verifiedRec` and its stored object. -/
def verifiedRemote : Remote :=
  { table := [verifiedRec], objects := ["user-1/t.pdf"], clock := 200 }

/-! ### Percent-decoding lemmas -/

theorem percentDecode_cons_ne (c : Char) (t : List Char) (h : c ≠ '%') :
    percentDecode (c :: t) = c :: percentDecode t := by
  cases t with
  | nil => simp [percentDecode, h]
  | cons d t2 =>
    cases t2 with
    | nil => simp [percentDecode, h]
    | cons e t3 => simp [percentDecode, h]

theorem percentDecode_encoded (h1 h2 : Char) (a b : Nat) (t : List Char)
    (ha : hexVal h1 = some a) (hb : hexVal h2 = some b) :
    percentDecode ('%' :: h1 :: h2 :: t) = Char.ofNat (16 * a + b) :: percentDecode t := by
  simp [percentDecode, ha, hb]

theorem hexVal_hexDigit (n : Nat) (h : n < 16) : hexVal (hexDigit n) = some n := by
  interval_cases n <;> decide

theorem unreserved_ne_percent (c : Char) (h : isUnreserved c = true) : c ≠ '%' := by
  intro heq
  subst heq
  exact absurd h (by decide)

theorem percentDecode_append (a b : List Char) (ha : ∀ c ∈ a, c ≠ '%') :
    percentDecode (a ++ b) = a ++ percentDecode b := by
  induction a with
  | nil => simp
  | cons c t ih =>
    have hc : c ≠ '%' := ha c (List.mem_cons_self c t)
    have ht : ∀ d ∈ t, d ≠ '%' := fun d hd => ha d (List.mem_cons_of_mem c hd)
    simp only [List.cons_append, percentDecode_cons_ne c _ hc, ih ht]

theorem percentDecode_encodeChar (c : Char) (t : List Char) (h : c.toNat < 256) :
    percentDecode (encodeChar c ++ t) = c :: percentDecode t := by
  by_cases hu : isUnreserved c = true
  · simp only [encodeChar, hu, if_pos]
    simpa using percentDecode_cons_ne c t (unreserved_ne_percent c hu)
  · simp only [encodeChar, hu, if_neg, Bool.not_eq_true]
    have hdiv : c.toNat / 16 < 16 := by omega
    have hmod : c.toNat % 16 < 16 := Nat.mod_lt _ (by norm_num)
    rw [List.cons_append, List.cons_append, List.cons_append, List.nil_append,
      percentDecode_encoded _ _ _ _ _ (hexVal_hexDigit _ hdiv) (hexVal_hexDigit _ hmod)]
    have : 16 * (c.toNat / 16) + c.toNat % 16 = c.toNat := by omega
    rw [this, Char.ofNat_toNat]

theorem percentDecode_encodeURIComponent (s : List Char) (h : ∀ c ∈ s, c.toNat < 256) :
    percentDecode (encodeURIComponent s) = s := by
  induction s with
  | nil => simp [encodeURIComponent, percentDecode]
  | cons c t ih =>
    have hc : c.toNat < 256 := h c (List.mem_cons_self c t)
    have ht : ∀ d ∈ t, d.toNat < 256 := fun d hd => h d (List.mem_cons_of_mem c hd)
    simp only [encodeURIComponent, List.flatMap_cons]
    rw [percentDecode_encodeChar c _ hc]
    simp only [encodeURIComponent] at ih
    rw [ih ht]

/-! ### Claims -/

/-- C1: for every file whose size exceeds `10*1024*1024` bytes or whose
media type is not among the allowed set (PDF, JPEG, PNG, DOC, DOCX), the
upload operation (`processFile`) surfaces a validation error toast before
any network call, invokes neither the object-storage nor the metadata
boundary (no boundary call at all), and leaves the document mirror — and the
remote state — unchanged. -/
theorem C1_upload_validation_rejects_locally (u : User) (docs : List Document)
    (remote : Remote) (f : UploadFaults) (uuid : String) (file : File)
    (h : file.size > 10 * 1024 * 1024 ∨ allowedTypes.contains file.type = false) :
    (processFile (some u) docs remote f uuid file).documents = docs ∧
    (processFile (some u) docs remote f uuid file).calls = [] ∧
    (processFile (some u) docs remote f uuid file).remote = remote ∧
    hasErrorToast (processFile (some u) docs remote f uuid file).toasts = true ∧
    (processFile (some u) docs remote f uuid file).thrown = none := by
  rcases h with h | h
  · simp [processFile, h, hasErrorToast]
  · by_cases hs : file.size > 10 * 1024 * 1024
    · simp [processFile, hs, hasErrorToast]
    · have h2 : file.type ∉ allowedTypes := by simpa using h
      simp [processFile, hs, h2, hasErrorToast]

/-- Witness for C1: an 11-MB PDF is rejected locally. -/
theorem C1_witness :
    ((10485761 : Nat) > 10 * 1024 * 1024 ∨
      allowedTypes.contains "application/pdf" = false) ∧
    ((processFile (some sampleUser) [] sampleRemote cleanUpload "t"
        ⟨"big.pdf", "application/pdf", 10485761⟩).documents = [] ∧
     (processFile (some sampleUser) [] sampleRemote cleanUpload "t"
        ⟨"big.pdf", "application/pdf", 10485761⟩).calls = [] ∧
     (processFile (some sampleUser) [] sampleRemote cleanUpload "t"
        ⟨"big.pdf", "application/pdf", 10485761⟩).remote = sampleRemote ∧
     hasErrorToast (processFile (some sampleUser) [] sampleRemote cleanUpload "t"
        ⟨"big.pdf", "application/pdf", 10485761⟩).toasts = true ∧
     (processFile (some sampleUser) [] sampleRemote cleanUpload "t"
        ⟨"big.pdf", "application/pdf", 10485761⟩).thrown = none) :=
  ⟨Or.inl (by decide),
   C1_upload_validation_rejects_locally sampleUser [] sampleRemote cleanUpload "t"
     ⟨"big.pdf", "application/pdf", 10485761⟩ (Or.inl (by decide))⟩

/-- C2 (amended): `uploadDocument` called while no identity is authenticated
fails with the authorization toast, performs no remote boundary call, and
leaves the (empty) mirror and the remote state unchanged; the anonymous
mirror produced by the fetch effect is the empty list. -/
theorem C2_anonymous_upload_is_guarded (remote : Remote) (f : UploadFaults)
    (uuid : String) (file : File) (docs : List Document) (e : Option String) :
    (uploadDocument none [] remote f uuid file).documents = [] ∧
    (uploadDocument none [] remote f uuid file).calls = [] ∧
    (uploadDocument none [] remote f uuid file).remote = remote ∧
    (uploadDocument none [] remote f uuid file).toasts
      = [Toast.error "Please login to upload documents"] ∧
    (uploadDocument none [] remote f uuid file).thrown = none ∧
    (fetchDocuments none docs remote e).documents = [] :=
  ⟨rfl, rfl, rfl, rfl, rfl, rfl⟩

/-- Counterexample to C2 as stated: `deleteDocument` performs a remote
boundary call (the metadata select) even while no identity is authenticated;
the source has no authentication check in `deleteDocument`, `shareDocument`
or `toggleVerifyDocument`. -/
theorem C2_counterexample_anonymous_delete_calls_remote :
    (deleteDocument none [] { table := [], objects := [], clock := 0 }
        cleanDelete "doc-x").calls = [Call.dbSelect] ∧
    (deleteDocument none [] { table := [], objects := [], clock := 0 }
        cleanDelete "doc-x").calls ≠ [] := by
  constructor
  · decide
  · decide

/-- C9: `deleteDocument id` where no mirror entry carries `id` leaves the
mirror exactly as it was, whatever the remote outcome. -/
theorem C9_delete_absent_id_preserves_mirror (user : Option User)
    (docs : List Document) (remote : Remote) (f : DeleteFaults) (id : String)
    (h : ∀ d ∈ docs, d.id ≠ id) :
    (deleteDocument user docs remote f id).documents = docs := by
  obtain ⟨fe, se, de⟩ := f
  cases fe with
  | some e => simp [deleteDocument]
  | none =>
    cases hfind : remote.table.find? (fun r => r.id == id) with
    | none => simp [deleteDocument, hfind]
    | some r =>
      cases se with
      | some e => simp [deleteDocument, hfind]
      | none =>
        cases de with
        | some e => simp [deleteDocument, hfind]
        | none =>
          simp only [deleteDocument, hfind]
          exact List.filter_eq_self.mpr fun d hd2 => by
            simpa [bne_iff_ne] using h d hd2

/-- Witness for C9: deleting an id absent from a one-document mirror leaves
the mirror untouched. -/
theorem C9_witness :
    (∀ d ∈ [sampleDoc], d.id ≠ "zzz") ∧
    (deleteDocument (some sampleUser) [sampleDoc] sampleRemote cleanDelete
        "zzz").documents = [sampleDoc] :=
  ⟨by decide,
   C9_delete_absent_id_preserves_mirror (some sampleUser) [sampleDoc] sampleRemote
     cleanDelete "zzz" (by decide)⟩

/-- C10: for a successful `shareDocument id` and a successful
`toggleVerifyDocument id`, the mirror keeps its length, every entry whose id
differs from `id` is left completely unchanged, and the entry with the
matching id changes only its `shared` field (share) respectively only its
`verified` field (toggle-verify). -/
theorem C10_share_and_toggle_frame (user : Option User) (docs : List Document)
    (remote : Remote) (origin : List Char) (id : String) (r0 : DbRecord)
    (hfind : remote.table.find? (fun r => r.id == id) = some r0) :
    ((shareDocument user docs remote origin none id).documents.length = docs.length ∧
     ∀ i, (hi : i < docs.length) →
       (shareDocument user docs remote origin none id).documents[i]? =
         some (if (docs.get ⟨i, hi⟩).id = id
               then { docs.get ⟨i, hi⟩ with shared := true } else docs.get ⟨i, hi⟩)) ∧
    ((toggleVerifyDocument user docs remote cleanToggle id).documents.length = docs.length ∧
     ∀ i, (hi : i < docs.length) →
       (toggleVerifyDocument user docs remote cleanToggle id).documents[i]? =
         some (if (docs.get ⟨i, hi⟩).id = id
               then { docs.get ⟨i, hi⟩ with verified := !r0.verified }
               else docs.get ⟨i, hi⟩)) := by
  refine ⟨⟨by simp [shareDocument], ?_⟩,
          ⟨by simp [toggleVerifyDocument, cleanToggle, hfind], ?_⟩⟩
  · intro i hi
    simp only [shareDocument, List.getElem?_map, List.getElem?_eq_getElem hi,
      Option.map_some, List.get_eq_getElem]
    by_cases h : docs[i].id = id <;> simp [h]
  · intro i hi
    simp only [toggleVerifyDocument, cleanToggle, hfind, List.getElem?_map,
      List.getElem?_eq_getElem hi, Option.map_some, List.get_eq_getElem]
    by_cases h : docs[i].id = id <;> simp [h]

/-- Witness for C10 at a two-document mirror in which only the first entry
matches id `1`. -/
theorem C10_witness :
    (sampleRemote.table.find? (fun r => r.id == "1") = some sampleRec) ∧
    (((shareDocument (some sampleUser) [sampleDoc, { sampleDoc with id := "2" }]
          sampleRemote ("https://app.example").data none "1").documents.length
        = [sampleDoc, { sampleDoc with id := "2" }].length ∧
      ∀ i, (hi : i < [sampleDoc, { sampleDoc with id := "2" }].length) →
        (shareDocument (some sampleUser) [sampleDoc, { sampleDoc with id := "2" }]
            sampleRemote ("https://app.example").data none "1").documents[i]? =
          some (if ([sampleDoc, { sampleDoc with id := "2" }].get ⟨i, hi⟩).id = "1"
                then { [sampleDoc, { sampleDoc with id := "2" }].get ⟨i, hi⟩ with
                        shared := true }
                else [sampleDoc, { sampleDoc with id := "2" }].get ⟨i, hi⟩)) ∧
     ((toggleVerifyDocument (some sampleUser) [sampleDoc, { sampleDoc with id := "2" }]
          sampleRemote cleanToggle "1").documents.length
        = [sampleDoc, { sampleDoc with id := "2" }].length ∧
      ∀ i, (hi : i < [sampleDoc, { sampleDoc with id := "2" }].length) →
        (toggleVerifyDocument (some sampleUser) [sampleDoc, { sampleDoc with id := "2" }]
            sampleRemote cleanToggle "1").documents[i]? =
          some (if ([sampleDoc, { sampleDoc with id := "2" }].get ⟨i, hi⟩).id = "1"
                then { [sampleDoc, { sampleDoc with id := "2" }].get ⟨i, hi⟩ with
                        verified := !sampleRec.verified }
                else [sampleDoc, { sampleDoc with id := "2" }].get ⟨i, hi⟩))) :=
  ⟨by decide,
   C10_share_and_toggle_frame (some sampleUser) [sampleDoc, { sampleDoc with id := "2" }]
     sampleRemote ("https://app.example").data "1" sampleRec (by decide)⟩

/-- C6: whenever a remote boundary call of an operation rejects, the failure
is caught and converted into an error toast and the mirror is left unchanged
in its last-known-good state; `uploadDocument`, `deleteDocument`,
`toggleVerifyDocument` and the fetch effect re-raise nothing, while
`shareDocument` re-raises the failure once after the notification. -/
theorem C6_failures_caught_and_mirror_intact :
    (∀ (u : User) (docs : List Document) (remote : Remote) (f : UploadFaults)
        (uuid : String) (file : File),
      (f.uploadError ≠ none ∨ f.dbError ≠ none ∨ f.selectError ≠ none) →
      (uploadDocument (some u) docs remote f uuid file).documents = docs ∧
      hasErrorToast (uploadDocument (some u) docs remote f uuid file).toasts = true ∧
      (uploadDocument (some u) docs remote f uuid file).thrown = none) ∧
    (∀ (user : Option User) (docs : List Document) (remote : Remote)
        (f : DeleteFaults) (id : String),
      (f.fetchError ≠ none ∨ f.storageError ≠ none ∨ f.dbError ≠ none ∨
        remote.table.find? (fun r => r.id == id) = none) →
      (deleteDocument user docs remote f id).documents = docs ∧
      hasErrorToast (deleteDocument user docs remote f id).toasts = true ∧
      (deleteDocument user docs remote f id).thrown = none) ∧
    (∀ (user : Option User) (docs : List Document) (remote : Remote)
        (origin : List Char) (e : String) (id : String),
      (shareDocument user docs remote origin (some e) id).documents = docs ∧
      (shareDocument user docs remote origin (some e) id).toasts = [Toast.error e] ∧
      (shareDocument user docs remote origin (some e) id).thrown = some e) ∧
    (∀ (user : Option User) (docs : List Document) (remote : Remote)
        (f : ToggleFaults) (id : String),
      (f.fetchError ≠ none ∨ f.updateError ≠ none ∨
        remote.table.find? (fun r => r.id == id) = none) →
      (toggleVerifyDocument user docs remote f id).documents = docs ∧
      hasErrorToast (toggleVerifyDocument user docs remote f id).toasts = true ∧
      (toggleVerifyDocument user docs remote f id).thrown = none) ∧
    (∀ (u : User) (docs : List Document) (remote : Remote) (e : String),
      (fetchDocuments (some u) docs remote (some e)).documents = docs ∧
      hasErrorToast (fetchDocuments (some u) docs remote (some e)).toasts = true ∧
      (fetchDocuments (some u) docs remote (some e)).thrown = none) := by
  refine ⟨?_, ?_, ?_, ?_, ?_⟩
  · intro u docs remote f uuid file h
    obtain ⟨ue, de, se⟩ := f
    cases ue with
    | some e => simp [uploadDocument, hasErrorToast]
    | none =>
      cases de with
      | some e => simp [uploadDocument, hasErrorToast]
      | none =>
        cases se with
        | some e => simp [uploadDocument, hasErrorToast]
        | none => simp at h
  · intro user docs remote f id h
    obtain ⟨fe, se, de⟩ := f
    cases fe with
    | some e => simp [deleteDocument, hasErrorToast]
    | none =>
      cases hfind : remote.table.find? (fun r => r.id == id) with
      | none => simp [deleteDocument, hfind, hasErrorToast]
      | some r =>
        cases se with
        | some e => simp [deleteDocument, hfind, hasErrorToast]
        | none =>
          cases de with
          | some e => simp [deleteDocument, hfind, hasErrorToast]
          | none => simp [hfind] at h
  · intro user docs remote origin e id
    exact ⟨rfl, rfl, rfl⟩
  · intro user docs remote f id h
    obtain ⟨fe, ue⟩ := f
    cases fe with
    | some e => simp [toggleVerifyDocument, hasErrorToast]
    | none =>
      cases hfind : remote.table.find? (fun r => r.id == id) with
      | none => simp [toggleVerifyDocument, hfind, hasErrorToast]
      | some r =>
        cases ue with
        | some e => simp [toggleVerifyDocument, hfind, hasErrorToast]
        | none => simp [hfind] at h
  · intro u docs remote e
    exact ⟨rfl, rfl, rfl⟩

/-- Witness for C6: each fallible operation evaluated at a concrete rejected
remote call keeps the one-document mirror, toasts an error, and only
`shareDocument` re-throws. -/
theorem C6_witness :
    ((uploadDocument (some sampleUser) [sampleDoc] sampleRemote
        ⟨some "boom", none, none⟩ "t" sampleFile).documents = [sampleDoc] ∧
     hasErrorToast (uploadDocument (some sampleUser) [sampleDoc] sampleRemote
        ⟨some "boom", none, none⟩ "t" sampleFile).toasts = true ∧
     (uploadDocument (some sampleUser) [sampleDoc] sampleRemote
        ⟨some "boom", none, none⟩ "t" sampleFile).thrown = none) ∧
    ((deleteDocument (some sampleUser) [sampleDoc] sampleRemote
        ⟨none, some "gone", none⟩ "1").documents = [sampleDoc] ∧
     hasErrorToast (deleteDocument (some sampleUser) [sampleDoc] sampleRemote
        ⟨none, some "gone", none⟩ "1").toasts = true ∧
     (deleteDocument (some sampleUser) [sampleDoc] sampleRemote
        ⟨none, some "gone", none⟩ "1").thrown = none) ∧
    ((shareDocument (some sampleUser) [sampleDoc] sampleRemote
        ("https://app.example").data (some "down") "1").documents = [sampleDoc] ∧
     (shareDocument (some sampleUser) [sampleDoc] sampleRemote
        ("https://app.example").data (some "down") "1").toasts = [Toast.error "down"] ∧
     (shareDocument (some sampleUser) [sampleDoc] sampleRemote
        ("https://app.example").data (some "down") "1").thrown = some "down") ∧
    ((toggleVerifyDocument (some sampleUser) [sampleDoc] sampleRemote
        ⟨none, some "nope"⟩ "1").documents = [sampleDoc] ∧
     hasErrorToast (toggleVerifyDocument (some sampleUser) [sampleDoc] sampleRemote
        ⟨none, some "nope"⟩ "1").toasts = true ∧
     (toggleVerifyDocument (some sampleUser) [sampleDoc] sampleRemote
        ⟨none, some "nope"⟩ "1").thrown = none) :=
  ⟨C6_failures_caught_and_mirror_intact.1 sampleUser [sampleDoc] sampleRemote
      ⟨some "boom", none, none⟩ "t" sampleFile (Or.inl (by decide)),
   C6_failures_caught_and_mirror_intact.2.1 (some sampleUser) [sampleDoc] sampleRemote
      ⟨none, some "gone", none⟩ "1" (Or.inr (Or.inl (by decide))),
   C6_failures_caught_and_mirror_intact.2.2.1 (some sampleUser) [sampleDoc] sampleRemote
      ("https://app.example").data "down" "1",
   C6_failures_caught_and_mirror_intact.2.2.2.1 (some sampleUser) [sampleDoc] sampleRemote
      ⟨none, some "nope"⟩ "1" (Or.inr (Or.inl (by decide)))⟩

/-- C3 (amended, Supabase variant): after a fully successful
`uploadDocument`, the new document is prepended to the mirror (the tail is
the previous mirror, no re-fetch), and it has `shared = false`,
`verified = false` and a server-assigned creation timestamp at least as
large as every previously-present document's timestamp. -/
theorem C3_upload_prepends_fresh_document (u : User) (docs : List Document)
    (remote : Remote) (uuid : String) (file : File)
    (hclock : ∀ d ∈ docs, d.createdAt ≤ remote.clock) :
    (uploadDocument (some u) docs remote cleanUpload uuid file).documents
      = uploadedDoc u remote uuid file :: docs ∧
    (uploadedDoc u remote uuid file).shared = false ∧
    (uploadedDoc u remote uuid file).verified = false ∧
    ∀ d ∈ docs, d.createdAt ≤ (uploadedDoc u remote uuid file).createdAt := by
  refine ⟨rfl, rfl, rfl, ?_⟩
  intro d hd
  exact hclock d hd

/-- Witness for C3: uploading into a one-document mirror whose timestamp is
below the server clock. -/
theorem C3_witness :
    (∀ d ∈ [sampleDoc], d.createdAt ≤ sampleRemote.clock) ∧
    ((uploadDocument (some sampleUser) [sampleDoc] sampleRemote cleanUpload "t"
        sampleFile).documents
      = uploadedDoc sampleUser sampleRemote "t" sampleFile :: [sampleDoc] ∧
     (uploadedDoc sampleUser sampleRemote "t" sampleFile).shared = false ∧
     (uploadedDoc sampleUser sampleRemote "t" sampleFile).verified = false ∧
     ∀ d ∈ [sampleDoc],
       d.createdAt ≤ (uploadedDoc sampleUser sampleRemote "t" sampleFile).createdAt) :=
  ⟨by decide,
   C3_upload_prepends_fresh_document sampleUser [sampleDoc] sampleRemote "t"
     sampleFile (by decide)⟩

/-- Counterexample to C3 as stated: the localStorage mock appends the new
document at the END of the mirror (`[...documents, newDoc]`), so after a
successful upload over the seeded demo documents the mirror's first element
is still `Passport.pdf` with `verified = true` — not the new document, and
not an element with `verified = false`. -/
theorem C3_counterexample_mock_upload_appends_at_end :
    ((Mock.uploadDocument Mock.demoDocuments 20230710000000 "blob:demo"
        sampleFile).1.head?.map (fun d => d.name) = some "Passport.pdf") ∧
    ((Mock.uploadDocument Mock.demoDocuments 20230710000000 "blob:demo"
        sampleFile).1.head?.map (fun d => d.verified) = some true) := by
  constructor
  · decide
  · decide

/-- C4 (amended, Supabase variant): after the list operation, the mirror is
sorted non-increasing by creation timestamp — the query orders by
`created_at` descending and the mapping to documents preserves order and
timestamps. -/
theorem C4_list_is_sorted_newest_first (u : User) (docs : List Document)
    (remote : Remote) :
    List.Sorted newestFirst (fetchDocuments (some u) docs remote none).documents := by
  simp only [fetchDocuments]
  exact List.Pairwise.map docOfRecord (fun a b hab => hab)
    (List.sorted_insertionSort rowNewestFirst _)

/-- Counterexample to C4 as stated: the localStorage mock seeds the mirror
with its demo documents in ASCENDING creation order (2023-01-15, 2023-02-20,
2023-03-05), so after the load the mirror is not non-increasing. -/
theorem C4_counterexample_mock_demo_documents_ascending :
    ¬ List.Sorted newestFirst (Mock.loadDocuments (some sampleUser) none) := by
  intro h
  have h12 := List.rel_of_sorted_cons h
    { id := "2", name := "Driver_License.jpg", type := "image/jpeg", size := 1200000
      createdAt := 20230220103000, updatedAt := 20230220103000, url := "#"
      shared := true, verified := true, preview := some "/placeholder.svg" }
    (by decide)
  exact absurd h12 (by decide)

/-- C5 (amended, Supabase variant): when the metadata record exists but the
stored object at its storage pointer no longer exists, the storage remove
still reports success (Supabase ignores missing keys), so `deleteDocument`
proceeds to remove the metadata record and the mirror entry. -/
theorem C5_supabase_delete_missing_object_proceeds (user : Option User)
    (docs : List Document) (remote : Remote) (id : String) (r0 : DbRecord)
    (hfind : remote.table.find? (fun r => r.id == id) = some r0)
    (_hobj : remote.objects.contains r0.storage_path = false) :
    (deleteDocument user docs remote cleanDelete id).documents
      = docs.filter (fun d => d.id != id) ∧
    (deleteDocument user docs remote cleanDelete id).remote.table
      = remote.table.filter (fun x => x.id != id) ∧
    (deleteDocument user docs remote cleanDelete id).toasts
      = [Toast.success "Document deleted successfully"] := by
  simp [deleteDocument, cleanDelete, hfind]

/-- Witness for C5: the record for id `1` exists but its object is gone; the
delete still removes the record and the mirror entry. -/
theorem C5_witness :
    (({ table := [sampleRec], objects := [], clock := 200 } : Remote).table.find?
        (fun r => r.id == "1") = some sampleRec) ∧
    (({ table := [sampleRec], objects := [], clock := 200 } : Remote).objects.contains
        sampleRec.storage_path = false) ∧
    ((deleteDocument (some sampleUser) [sampleDoc]
        { table := [sampleRec], objects := [], clock := 200 } cleanDelete "1").documents
      = [sampleDoc].filter (fun d => d.id != "1") ∧
     (deleteDocument (some sampleUser) [sampleDoc]
        { table := [sampleRec], objects := [], clock := 200 } cleanDelete "1").remote.table
      = [sampleRec].filter (fun x => x.id != "1") ∧
     (deleteDocument (some sampleUser) [sampleDoc]
        { table := [sampleRec], objects := [], clock := 200 } cleanDelete "1").toasts
      = [Toast.success "Document deleted successfully"]) :=
  ⟨by decide, by decide,
   C5_supabase_delete_missing_object_proceeds (some sampleUser) [sampleDoc]
     { table := [sampleRec], objects := [], clock := 200 } "1" sampleRec
     (by decide) (by decide)⟩

/-- Counterexample to C5 as stated: in the Firebase variant `deleteObject`
rejects with `storage/object-not-found` when the object is absent; the catch
toasts the error and the metadata record and the mirror entry are NOT
removed. -/
theorem C5_counterexample_firebase_delete_aborts :
    (Firebase.deleteDocument [sampleDoc]
        { table := [sampleRec], objects := [], clock := 200 } "1").documents
      = [sampleDoc] ∧
    (Firebase.deleteDocument [sampleDoc]
        { table := [sampleRec], objects := [], clock := 200 } "1").remote.table
      = [sampleRec] ∧
    hasErrorToast (Firebase.deleteDocument [sampleDoc]
        { table := [sampleRec], objects := [], clock := 200 } "1").toasts = true := by
  refine ⟨by decide, by decide, by decide⟩

/-- Updating the `verified` field of the row matching `id` commutes with
`find?` for that id: the updated table's hit is the updated original hit. -/
theorem find?_verified_update (l : List DbRecord) (id : String) (b : Bool) :
    (l.map (fun x => if x.id == id then { x with verified := b } else x)).find?
        (fun r => r.id == id)
      = (l.find? (fun r => r.id == id)).map
          (fun x => if x.id == id then { x with verified := b } else x) := by
  induction l with
  | nil => rfl
  | cons a t ih =>
    by_cases h : (a.id == id) = true
    · have h2 : (((if a.id == id then { a with verified := b } else a) : DbRecord).id == id)
          = true := by
        rw [if_pos h]
        exact h
      have step1 : ((a :: t).map
            (fun x => if x.id == id then { x with verified := b } else x)).find?
            (fun r => r.id == id)
          = some (if a.id == id then { a with verified := b } else a) := by
        rw [List.map_cons]
        exact List.find?_cons_of_pos _ h2
      have step2 : (a :: t).find? (fun r => r.id == id) = some a :=
        List.find?_cons_of_pos _ h
      rw [step1, step2]
      rfl
    · have h2 : ¬ ((((if a.id == id then { a with verified := b } else a) : DbRecord).id == id)
          = true) := by
        rw [if_neg h]
        exact h
      have step1 : ((a :: t).map
            (fun x => if x.id == id then { x with verified := b } else x)).find?
            (fun r => r.id == id)
          = (t.map (fun x => if x.id == id then { x with verified := b } else x)).find?
            (fun r => r.id == id) := by
        rw [List.map_cons]
        exact List.find?_cons_of_neg _ h2
      have step2 : (a :: t).find? (fun r => r.id == id) = t.find? (fun r => r.id == id) :=
        List.find?_cons_of_neg _ h
      rw [step1, step2, ih]

/-- C7 (amended): with the mirror consistent with the table entry for `id`,
applying `toggleVerifyDocument id` twice restores the mirror (so the
document's `verified` flag returns to its original value), and the two calls
emit exactly one "verified" success toast and one "un-verified" info toast —
"verified" first when the document was initially unverified, "un-verified"
first when it was initially verified. -/
theorem C7_toggle_twice_restores_flag (user : Option User) (docs : List Document)
    (remote : Remote) (id : String) (r0 : DbRecord)
    (hfind : remote.table.find? (fun r => r.id == id) = some r0)
    (hmirror : ∀ d ∈ docs, d.id = id → d.verified = r0.verified) :
    (toggleVerifyDocument user
        (toggleVerifyDocument user docs remote cleanToggle id).documents
        (toggleVerifyDocument user docs remote cleanToggle id).remote
        cleanToggle id).documents = docs ∧
    (toggleVerifyDocument user docs remote cleanToggle id).toasts ++
      (toggleVerifyDocument user
        (toggleVerifyDocument user docs remote cleanToggle id).documents
        (toggleVerifyDocument user docs remote cleanToggle id).remote
        cleanToggle id).toasts
      = if r0.verified
        then [Toast.info "Document verification removed",
              Toast.success "Document verified successfully"]
        else [Toast.success "Document verified successfully",
              Toast.info "Document verification removed"] := by
  have hr0 : r0.id = id := by
    have h := List.find?_some hfind
    simpa using h
  have ht1docs : (toggleVerifyDocument user docs remote cleanToggle id).documents
      = docs.map (fun d => if d.id == id then { d with verified := !r0.verified } else d) := by
    simp [toggleVerifyDocument, cleanToggle, hfind]
  have ht1table : (toggleVerifyDocument user docs remote cleanToggle id).remote.table
      = remote.table.map
          (fun x => if x.id == id then { x with verified := !r0.verified } else x) := by
    simp [toggleVerifyDocument, cleanToggle, hfind]
  have ht1toasts : (toggleVerifyDocument user docs remote cleanToggle id).toasts
      = [if !r0.verified then Toast.success "Document verified successfully"
         else Toast.info "Document verification removed"] := by
    simp [toggleVerifyDocument, cleanToggle, hfind]
  have hfind2 : (toggleVerifyDocument user docs remote cleanToggle id).remote.table.find?
        (fun r => r.id == id) = some { r0 with verified := !r0.verified } := by
    rw [ht1table, find?_verified_update, hfind]
    simp [hr0]
  obtain ⟨t1, hgen⟩ : ∃ t1, toggleVerifyDocument user docs remote cleanToggle id = t1 :=
    ⟨_, rfl⟩
  rw [hgen] at ht1docs ht1toasts hfind2 ⊢
  have ht2docs : (toggleVerifyDocument user t1.documents t1.remote cleanToggle id).documents
      = t1.documents.map
          (fun d => if d.id == id then { d with verified := r0.verified } else d) := by
    simp [toggleVerifyDocument, cleanToggle, hfind2, Bool.not_not]
  have ht2toasts : (toggleVerifyDocument user t1.documents t1.remote cleanToggle id).toasts
      = [if r0.verified then Toast.success "Document verified successfully"
         else Toast.info "Document verification removed"] := by
    simp [toggleVerifyDocument, cleanToggle, hfind2, Bool.not_not]
  constructor
  · rw [ht2docs, ht1docs, List.map_map]
    refine (List.map_congr_left ?_).trans (List.map_id' docs)
    intro d hd
    by_cases h : d.id = id
    · have hv := hmirror d hd h
      cases d with
      | mk did dn dt ds dca dua du dsh dv dp =>
        simp only at hv h
        simp [Function.comp, h, hv]
    · simp [Function.comp, h]
  · rw [ht1toasts, ht2toasts]
    cases r0.verified <;> simp

/-- Witness for C7: toggling id `1` twice on an initially-unverified
document restores the mirror and toasts "verified" then "un-verified". -/
theorem C7_witness :
    (sampleRemote.table.find? (fun r => r.id == "1") = some sampleRec) ∧
    (∀ d ∈ [sampleDoc], d.id = "1" → d.verified = sampleRec.verified) ∧
    ((toggleVerifyDocument (some sampleUser)
        (toggleVerifyDocument (some sampleUser) [sampleDoc] sampleRemote cleanToggle "1").documents
        (toggleVerifyDocument (some sampleUser) [sampleDoc] sampleRemote cleanToggle "1").remote
        cleanToggle "1").documents = [sampleDoc] ∧
     (toggleVerifyDocument (some sampleUser) [sampleDoc] sampleRemote cleanToggle "1").toasts ++
       (toggleVerifyDocument (some sampleUser)
         (toggleVerifyDocument (some sampleUser) [sampleDoc] sampleRemote cleanToggle "1").documents
         (toggleVerifyDocument (some sampleUser) [sampleDoc] sampleRemote cleanToggle "1").remote
         cleanToggle "1").toasts
       = if sampleRec.verified
         then [Toast.info "Document verification removed",
               Toast.success "Document verified successfully"]
         else [Toast.success "Document verified successfully",
               Toast.info "Document verification removed"]) :=
  ⟨by decide, by decide,
   C7_toggle_twice_restores_flag (some sampleUser) [sampleDoc] sampleRemote "1" sampleRec
     (by decide) (by decide)⟩

/-- Counterexample to C7 as stated: on an initially VERIFIED document the
two toggles emit the info ("un-verified") toast first and the success
("verified") toast second — not the claimed order. -/
theorem C7_counterexample_verified_document_reversed_order :
    ((toggleVerifyDocument (some sampleUser) [verifiedDoc] verifiedRemote cleanToggle "1").toasts ++
      (toggleVerifyDocument (some sampleUser)
        (toggleVerifyDocument (some sampleUser) [verifiedDoc] verifiedRemote cleanToggle "1").documents
        (toggleVerifyDocument (some sampleUser) [verifiedDoc] verifiedRemote cleanToggle "1").remote
        cleanToggle "1").toasts
      = [Toast.info "Document verification removed",
         Toast.success "Document verified successfully"]) ∧
    ((toggleVerifyDocument (some sampleUser) [verifiedDoc] verifiedRemote cleanToggle "1").toasts ++
      (toggleVerifyDocument (some sampleUser)
        (toggleVerifyDocument (some sampleUser) [verifiedDoc] verifiedRemote cleanToggle "1").documents
        (toggleVerifyDocument (some sampleUser) [verifiedDoc] verifiedRemote cleanToggle "1").remote
        cleanToggle "1").toasts
      ≠ [Toast.success "Document verified successfully",
         Toast.info "Document verification removed"]) := by
  constructor
  · decide
  · decide

/-- C8: `shareDocument` always returns the descriptor computed from the
page origin and the document id alone — the same value for every mirror and
remote state, hence computed fresh per call and persisted nowhere — whose
url contains the literal document id and whose QR-code URL, once
percent-decoded, contains that same url. -/
theorem C8_share_descriptor_embeds_id (user : Option User) (docs : List Document)
    (remote : Remote) (origin : List Char) (id : String)
    (horigin : ∀ c ∈ origin, c.toNat < 256)
    (hid : ∀ c ∈ id.data, c.toNat < 256) :
    (shareDocument user docs remote origin none id).result
      = some (shareLinkFor origin id) ∧
    occursIn id.data (shareLinkFor origin id).url ∧
    occursIn (shareLinkFor origin id).url
      (percentDecode (shareLinkFor origin id).qrCode) := by
  refine ⟨rfl, ⟨origin ++ ("/shared/").data, [], by simp [shareLinkFor, sharingUrl]⟩, ?_⟩
  have hq : ∀ c ∈ qrBase, c ≠ '%' := by decide
  have hsh : ∀ c ∈ ("/shared/").data, c.toNat < 256 := by decide
  have hurl : ∀ c ∈ sharingUrl origin id, c.toNat < 256 := by
    intro c hc
    simp only [sharingUrl, List.append_assoc, List.mem_append] at hc
    rcases hc with hc | hc | hc
    · exact horigin c hc
    · exact hsh c hc
    · exact hid c hc
  have hdecode : percentDecode (shareLinkFor origin id).qrCode
      = qrBase ++ sharingUrl origin id := by
    show percentDecode (qrBase ++ encodeURIComponent (sharingUrl origin id))
        = qrBase ++ sharingUrl origin id
    rw [percentDecode_append _ _ hq, percentDecode_encodeURIComponent _ hurl]
  rw [hdecode]
  exact ⟨qrBase, [], by simp [shareLinkFor]⟩

/-- Witness for C8 at origin `https://app.example` and id `1`. -/
theorem C8_witness :
    (∀ c ∈ ("https://app.example").data, c.toNat < 256) ∧
    (∀ c ∈ ("1").data, c.toNat < 256) ∧
    ((shareDocument (some sampleUser) [sampleDoc] sampleRemote
        ("https://app.example").data none "1").result
      = some (shareLinkFor ("https://app.example").data "1") ∧
     occursIn ("1").data (shareLinkFor ("https://app.example").data "1").url ∧
     occursIn (shareLinkFor ("https://app.example").data "1").url
       (percentDecode (shareLinkFor ("https://app.example").data "1").qrCode)) :=
  ⟨by decide, by decide,
   C8_share_descriptor_embeds_id (some sampleUser) [sampleDoc] sampleRemote
     ("https://app.example").data "1" (by decide) (by decide)⟩

end Vault
